import Mathlib

/-!
Verification of the tb-cli backup/restore core (a ThingsBoard CLI).

The development shallowly embeds the `backup`, `restore`, `clone` and `label`
functions of the CLI. Entity bodies are arbitrary JSON values, modelled by
`JVal`; JavaScript property reads and writes (which may throw a `TypeError`
on `undefined`/`null` bases, and which in strict mode throw when assigning to
a property of a primitive) are modelled in an `Except Unit` monad, `.error ()`
standing for a thrown exception that the surrounding try/catch swallows.
`undefined` is modelled as `Option.none`; a field assigned `undefined` is
dropped, matching what `JSON.stringify` serializes.

Network calls are modelled by environments: each embedded operation takes the
platform's responses as arguments and returns the sequence of write calls it
issues, so claims about "what is submitted to the platform" are statements
about that call trace.
-/

set_option maxHeartbeats 1000000

/-- JSON values, the dynamic entity bodies the CLI manipulates. -/
inductive JVal where
  | null
  | bool (b : Bool)
  | num (n : Int)
  | str (s : String)
  | arr (xs : List JVal)
  | obj (fields : List (String × JVal))

/-- First value bound to key `k` in an object's field list. -/
def objGet (fs : List (String × JVal)) (k : String) : Option JVal :=
  match fs with
  | [] => none
  | p :: t => if p.1 == k then some p.2 else objGet t k

/-- JS assignment `o[k] = v`: overwrite the existing binding in place, or
append a fresh one. -/
def objSet (fs : List (String × JVal)) (k : String) (v : JVal) : List (String × JVal) :=
  match fs with
  | [] => [(k, v)]
  | p :: t => if p.1 == k then (k, v) :: t else p :: objSet t k v

/-- JS `delete o[k]`. -/
def objDel (fs : List (String × JVal)) (k : String) : List (String × JVal) :=
  fs.filter (fun p => p.1 != k)

def JVal.get? : JVal → String → Option JVal
  | .obj fs, k => objGet fs k
  | _, _ => none

/-- `delete j[k]` at the top level of a value (no-op on non-objects, as in JS). -/
def delField (j : JVal) (k : String) : JVal :=
  match j with
  | .obj fs => .obj (objDel fs k)
  | _ => j

def JVal.set (j : JVal) (k : String) (v : JVal) : JVal :=
  match j with
  | .obj fs => .obj (objSet fs k v)
  | _ => j

def JVal.isObj : JVal → Bool
  | .obj _ => true
  | _ => false

/-- JS property read `base.k` where `base` is a value (never `undefined`):
reading from `null` throws, reading a missing key of an object or any key of a
primitive yields `undefined` (`none`). -/
def jsProp : JVal → String → Except Unit (Option JVal)
  | .null, _ => .error ()
  | .obj fs, k => .ok (objGet fs k)
  | _, _ => .ok none

/-- JS property read `base.k` where `base` may be `undefined`, which throws. -/
def jsPropOpt : Option JVal → String → Except Unit (Option JVal)
  | none, _ => .error ()
  | some j, k => jsProp j k

/-- JS truthiness. -/
def jsTruthy : JVal → Bool
  | .null => false
  | .bool b => b
  | .num n => n != 0
  | .str s => !s.isEmpty
  | .arr _ => true
  | .obj _ => true

/-- Falsiness of a possibly-`undefined` value, the test `x || y` applies to `x`. -/
def jsFalsy : Option JVal → Bool
  | none => true
  | some v => !jsTruthy v

/-- JS `a || b` over possibly-`undefined` operands. -/
def jsOrOpt (a b : Option JVal) : Option JVal :=
  if jsFalsy a then b else a

/-- JS strict-mode property assignment `j.k = v`. Objects are updated;
assigning to a property of `null`, of a primitive, or (for our purposes) of an
array throws. Named properties assigned on arrays would in fact be silently
accepted by JS and then dropped by `JSON.stringify`; the entity schemas the
CLI touches never do this, so the thrown path is used for arrays as well. -/
def jsSetProp (j : JVal) (k : String) (v : JVal) : Except Unit JVal :=
  match j with
  | .obj fs => .ok (.obj (objSet fs k v))
  | _ => .error ()

/-- JS nested assignment `j.p₁.p₂⋯.k = v`: walk the path with ordinary property
reads (throwing on `undefined`/`null` intermediates), then assign at the end. -/
def jsSetPath : JVal → List String → String → JVal → Except Unit JVal
  | j, [], k, v => jsSetProp j k v
  | j, p :: ps, k, v =>
    match jsProp j p with
    | .error _ => .error ()
    | .ok none => .error ()
    | .ok (some inner) =>
      match jsSetPath inner ps k v with
      | .error _ => .error ()
      | .ok inner2 => .ok (j.set p inner2)

/-- JS nested assignment of `undefined`: the walk is identical to `jsSetPath`,
and the final key disappears from the serialized form. -/
def jsDelPath : JVal → List String → String → Except Unit JVal
  | j, [], k =>
    match j with
    | .obj fs => .ok (.obj (objDel fs k))
    | _ => .error ()
  | j, p :: ps, k =>
    match jsProp j p with
    | .error _ => .error ()
    | .ok none => .error ()
    | .ok (some inner) =>
      match jsDelPath inner ps k with
      | .error _ => .error ()
      | .ok inner2 => .ok (j.set p inner2)

/-- Pure nested read, used to observe results in theorem statements. -/
def jsGetPath : JVal → List String → Option JVal
  | j, [] => some j
  | j, k :: ks =>
    match j.get? k with
    | some v => jsGetPath v ks
    | none => none

/-- Two key paths diverge when they disagree at some component that both
possess; a write at one then cannot be observed at the other. -/
def pathDiverges : List String → List String → Bool
  | [], _ => false
  | _ :: _, [] => false
  | a :: as, b :: bs => a != b || (a == b && pathDiverges as bs)

/-! ### Platform data shapes -/

/-- The platform wraps every identifier as `{ id: "<uuid>" }`. -/
structure EntityId where
  id : String
deriving DecidableEq, Repr

/-- Device summary as returned by `GET /tenant/devices`. -/
structure Device where
  id : EntityId
  name : String
deriving DecidableEq, Repr

/-- Dashboard summary as returned by `GET /tenant/dashboards`. -/
structure DashSummary where
  id : EntityId
  name : String
deriving DecidableEq, Repr

/-- Platform error body `{ errorCode, message }` surfaced via `e.response.data`. -/
structure ApiError where
  errorCode : Option Int
  message : String
deriving DecidableEq, Repr

/-- One `{key, value}` attribute entry of a stored device file. -/
structure AttrItem where
  key : String
  value : JVal

/-- The `attributes` object of a stored device file. -/
structure DeviceAttrs where
  server : List AttrItem
  shared : List AttrItem
  client : List AttrItem

/-- A parsed `devices/<name>.json` backup file: `{ accessToken, attributes }`. -/
structure DeviceFile where
  accessToken : String
  attributes : DeviceAttrs

/-- `split('.')` over a character list (structurally recursive so that proofs
can evaluate it). -/
def splitOnChar (sep : Char) : List Char → List (List Char)
  | [] => [[]]
  | c :: cs =>
    match splitOnChar sep cs with
    | h :: t => if c == sep then [] :: h :: t else (c :: h) :: t
    | [] => [[]]

/-- `join('.')`. -/
def joinWithDot : List (List Char) → List Char
  | [] => []
  | [x] => x
  | x :: xs => x ++ '.' :: joinWithDot xs

/-- `file.split('.').slice(0, -1).join('.')`: the stored device name. -/
def dropExtension (file : String) : String :=
  ⟨joinWithDot ((splitOnChar '.' file.data).dropLast)⟩

/-- `getAttributesObject` from `restore`: fold `{key, value}` entries into a
plain object, later keys overwriting earlier ones. -/
def getAttributesObject (attributesArray : List AttrItem) : List (String × JVal) :=
  attributesArray.foldl (fun acc a => objSet acc a.key a.value) []

/-! ### Device restore (`restore`, devices branch) -/

/-- The network calls device restore can issue, in issue order. -/
inductive ApiCall where
  | createDevice (name deviceType accessToken : String)
  | searchDevice (textSearch : String)
  | getCredentials (deviceId : String)
  | saveCredentials (credentials : List (String × JVal))
  | saveAttributes (deviceId : Option String) (scope : String) (attributes : List (String × JVal))

/-- Platform responses consumed while restoring one device file:
the outcome of `api.saveDevice`, the page returned by the name search,
the outcome of `api.getDeviceCredentials`, and whether each
`api.saveDeviceAttributes` call resolves. -/
structure RestoreDeviceEnv where
  createResult : Except ApiError Device
  searchResult : List Device
  credResult : Except ApiError (List (String × JVal))
  attrOk : Option String → String → Bool

/-- Result of restoring one device file: the `deviceId` variable's final
value, the calls issued, and whether the enclosing `catch (e) {}` swallowed an
exception part-way. -/
structure RestoreResult where
  deviceId : Option String
  calls : List ApiCall
  aborted : Bool

/-- One `if (scope.length > 0) await api.saveDeviceAttributes(...)` block.
A rejected write is caught by the outer `catch`, discarding the remaining
scopes' blocks. -/
def attrStep (env : RestoreDeviceEnv) (deviceId : Option String) (scope : String)
    (l : List AttrItem) (rest : List ApiCall × Bool) : List ApiCall × Bool :=
  if l.length > 0 then
    if env.attrOk deviceId scope then
      (ApiCall.saveAttributes deviceId scope (getAttributesObject l) :: rest.1, rest.2)
    else
      ([ApiCall.saveAttributes deviceId scope (getAttributesObject l)], true)
  else rest

/-- The three attribute-scope blocks of device restore, in source order. -/
def restoreAttrs (env : RestoreDeviceEnv) (file : DeviceFile) (deviceId : Option String) :
    List ApiCall × Bool :=
  attrStep env deviceId "SERVER_SCOPE" file.attributes.server
    (attrStep env deviceId "SHARED_SCOPE" file.attributes.shared
      (attrStep env deviceId "CLIENT_SCOPE" file.attributes.client ([], false)))

/-- Device restore for one stored file (the body of the `files.forEach`
callback): create the device as type `AT_CORE` with the stored access token;
on error code 31 look the device up by the file's name and repair its
credentials; on any other error only log; then write each non-empty attribute
scope.  `devices[0].id` on an empty search page throws, which the outer catch
swallows. -/
def restoreDevice (env : RestoreDeviceEnv) (fileName : String) (file : DeviceFile) :
    RestoreResult :=
  let deviceName := dropExtension fileName
  let createCall := ApiCall.createDevice deviceName "AT_CORE" file.accessToken
  match env.createResult with
  | .ok d =>
    { deviceId := some d.id.id
      calls := createCall :: (restoreAttrs env file (some d.id.id)).1
      aborted := (restoreAttrs env file (some d.id.id)).2 }
  | .error e =>
    if e.errorCode = some 31 then
      match env.searchResult with
      | [] =>
        { deviceId := none
          calls := [createCall, .searchDevice deviceName]
          aborted := true }
      | d :: _ =>
        let repairCalls :=
          match env.credResult with
          | .ok credentials =>
            [ApiCall.getCredentials d.id.id,
             .saveCredentials (objSet credentials "credentialsId" (.str file.accessToken))]
          | .error _ => [ApiCall.getCredentials d.id.id]
        { deviceId := some d.id.id
          calls := createCall :: .searchDevice deviceName ::
            (repairCalls ++ (restoreAttrs env file (some d.id.id)).1)
          aborted := (restoreAttrs env file (some d.id.id)).2 }
    else
      { deviceId := none
        calls := createCall :: (restoreAttrs env file none).1
        aborted := (restoreAttrs env file none).2 }

/-- Identity is established when creation succeeds or when the duplicate
branch (error code 31, search hit) runs. -/
def identityEstablished (env : RestoreDeviceEnv) : Prop :=
  (∃ d, env.createResult = .ok d) ∨
  (∃ e d ds, env.createResult = .error e ∧ e.errorCode = some 31 ∧ env.searchResult = d :: ds)

/-! ### Export (`backup`, per-entity writers) -/

/-- A file written into the tree store: path segments plus serialized content. -/
structure FileWrite where
  path : List String
  content : JVal

/-- `backupDashboard`: fetch the full dashboard body and write it, as
serialized, under `dashboards/<name>.json`. -/
def backupDashboard (tenantDir : List String) (dashboard : DashSummary)
    (dashboardData : JVal) : FileWrite :=
  ⟨tenantDir ++ ["dashboards", dashboard.name ++ ".json"], dashboardData⟩

/-- `backupDevice`: write `{ accessToken, attributes: {server, shared, client} }`
under `devices/<name>.json`, with `lastUpdateTs` deleted from every attribute
entry.  A missing `credentialsId` would leave `accessToken` undefined, which
`JSON.stringify` omits. -/
def backupDevice (tenantDir : List String) (device : Device)
    (serverAttributes sharedAttributes clientAttributes : List JVal)
    (credentials : JVal) : FileWrite :=
  ⟨tenantDir ++ ["devices", device.name ++ ".json"],
   .obj ((match credentials.get? "credentialsId" with
          | some accessToken => [("accessToken", accessToken)]
          | none => []) ++
         [("attributes", .obj
            [("server", .arr (serverAttributes.map (fun item => delField item "lastUpdateTs"))),
             ("shared", .arr (sharedAttributes.map (fun item => delField item "lastUpdateTs"))),
             ("client", .arr (clientAttributes.map (fun item => delField item "lastUpdateTs")))])])⟩

/-- Widget-bundle summary as returned by `GET /widgetsBundles`. -/
structure WidgetBundle where
  «alias» : String
  title : String
  tenantId : EntityId
deriving DecidableEq, Repr

/-- The file `backupWidgetBundle` writes for one bundle, its content being the
widget-types page fetched for the bundle's alias. -/
def bundleWrite (tenantDir : List String) (bundleData : String → JVal)
    (wb : WidgetBundle) : FileWrite :=
  ⟨tenantDir ++ ["widgets", wb.title ++ ".json"], bundleData wb.«alias»⟩

/-- `backupWidgets`: keep only bundles whose `tenantId` equals the exporting
account's tenant id, then write one file per surviving bundle. -/
def backupWidgets (tenantDir : List String) (accountTenantId : String)
    (widgetBundles : List WidgetBundle) (bundleData : String → JVal) : List FileWrite :=
  (widgetBundles.filter (fun wb => accountTenantId == wb.tenantId.id)).map
    (bundleWrite tenantDir bundleData)

/-! ### Dashboard restore (`restore`, dashboards branch) -/

/-- The `delete dashboard.id / createdTime / tenantId` prologue of dashboard
restore (the same stripping `convert` applies). -/
def stripRestoreFields (dashboard : JVal) : JVal :=
  delField (delField (delField dashboard "id") "createdTime") "tenantId"

/-- One entity-alias entry of the rewrite loop: when the alias's filter is a
single-entity DEVICE reference, resolve the recorded `alias` name against the
target and overwrite `filter.singleEntity.id`; otherwise (or when the device
is not found) leave the alias untouched. -/
def processAlias (resolveDevice : Option JVal → Option String) (a : JVal) :
    Except Unit JVal :=
  match jsProp a "filter" with
  | .error _ => .error ()
  | .ok fltOpt =>
    match jsPropOpt fltOpt "type" with
    | .error _ => .error ()
    | .ok (some (.str ty)) =>
      if ty == "singleEntity" then
        match jsPropOpt fltOpt "singleEntity" with
        | .error _ => .error ()
        | .ok seOpt =>
          match jsPropOpt seOpt "entityType" with
          | .error _ => .error ()
          | .ok (some (.str et)) =>
            if et == "DEVICE" then
              match jsProp a "alias" with
              | .error _ => .error ()
              | .ok deviceName =>
                match resolveDevice deviceName with
                | some devId => jsSetPath a ["filter", "singleEntity"] "id" (.str devId)
                | none => .ok a
            else .ok a
          | .ok _ => .ok a
      else .ok a
    | .ok _ => .ok a

/-- The alias loop over `Object.keys(configuration.entityAliases)`. -/
def mapAliases (resolveDevice : Option JVal → Option String)
    (aliases : List (String × JVal)) : Except Unit (List (String × JVal)) :=
  aliases.mapM (fun p => (processAlias resolveDevice p.2).map (fun a2 => (p.1, a2)))

/-- Destructuring `({ title }) =>` over one assigned-customer entry. -/
def destructTitle : JVal → Except Unit (Option JVal)
  | .null => .error ()
  | .obj fs => .ok (objGet fs "title")
  | _ => .ok none

/-- JS `array.splice(i, 1)`. -/
def spliceOne (l : List JVal) (i : Nat) : List JVal :=
  l.take i ++ l.drop (i + 1)

/-- The assigned-customers pass. Each entry of the original list was captured
(with its original index) when `map` launched the lookups; the mutations then
run against the current, already-mutated array in the order the lookups
complete. The embedding fixes that completion order to the launch (index)
order — the behavior when responses arrive in issue order, and the exact
microtask order when the lookups resolve immediately. -/
def processCustomersGo (resolveCustomer : Option JVal → Option String) :
    List (Nat × JVal) → List JVal → Except Unit (List JVal)
  | [], cur => .ok cur
  | (i, el) :: rest, cur =>
    match destructTitle el with
    | .error _ => .error ()
    | .ok title =>
      match resolveCustomer title with
      | some customerId =>
        match cur[i]? with
        | none => .error ()
        | some entry =>
          match jsSetPath entry ["customerId"] "id" (.str customerId) with
          | .error _ => .error ()
          | .ok entry2 => processCustomersGo resolveCustomer rest (cur.set i entry2)
      | none => processCustomersGo resolveCustomer rest (spliceOne cur i)

def processCustomers (resolveCustomer : Option JVal → Option String)
    (orig : List JVal) : Except Unit (List JVal) :=
  processCustomersGo resolveCustomer orig.enum orig

/-- `if (dashboard.assignedCustomers) { ... map ... }`: skipped when falsy,
throwing when truthy but not an array (`.map` is not a function). -/
def customersStage (resolveCustomer : Option JVal → Option String) (d2 : JVal) :
    Except Unit JVal :=
  match jsProp d2 "assignedCustomers" with
  | .error _ => .error ()
  | .ok none => .ok d2
  | .ok (some v) =>
    if jsTruthy v then
      match v with
      | .arr cs =>
        match processCustomers resolveCustomer cs with
        | .error _ => .error ()
        | .ok cs2 => .ok (d2.set "assignedCustomers" (.arr cs2))
      | _ => .error ()
    else .ok d2

/-- Dashboard restore after the field stripping: rewrite device aliases, then
assigned customers, and return the body handed to `api.saveDashboard`.
`Object.keys` on a number or boolean yields no keys (the loop body never
runs); on `null`/`undefined` it throws; on a non-empty string the loop reads a
property of a character and throws. -/
def restoreDashboardE (resolveDevice resolveCustomer : Option JVal → Option String)
    (d1 : JVal) : Except Unit JVal :=
  match jsProp d1 "configuration" with
  | .error _ => .error ()
  | .ok none => .error ()
  | .ok (some c) =>
    match jsProp c "entityAliases" with
    | .error _ => .error ()
    | .ok none => .error ()
    | .ok (some (.obj aliases)) =>
      match mapAliases resolveDevice aliases with
      | .error _ => .error ()
      | .ok newAliases =>
        customersStage resolveCustomer (d1.set "configuration" (c.set "entityAliases" (.obj newAliases)))
    | .ok (some (.arr xs)) =>
      match xs.mapM (processAlias resolveDevice) with
      | .error _ => .error ()
      | .ok xs2 =>
        customersStage resolveCustomer (d1.set "configuration" (c.set "entityAliases" (.arr xs2)))
    | .ok (some (.str s)) =>
      if s.isEmpty then customersStage resolveCustomer d1 else .error ()
    | .ok (some .null) => .error ()
    | .ok (some _) => customersStage resolveCustomer d1

/-- Restore of one `dashboards/<file>.json`: strip source-local fields, rewrite
references, save. `none` means the per-file `catch (e) {}` swallowed a thrown
error and nothing was saved. -/
def restoreDashboard (resolveDevice resolveCustomer : Option JVal → Option String)
    (dashboard : JVal) : Option JVal :=
  (restoreDashboardE resolveDevice resolveCustomer (stripRestoreFields dashboard)).toOption

/-! ### Clone -/

/-- How `clone` can end without creating anything: a missing dashboard or
device name exits with a user-facing message; `thrown` stands for an uncaught
exception while transforming the body (there is no try/catch in `clone`). -/
inductive CloneExit where
  | dashboardNotFound
  | deviceNotFound
  | thrown
deriving DecidableEq, Repr

/-- Search pages consumed by `clone` for its two name lookups. -/
structure CloneEnv where
  dashboards : List DashSummary
  devices : List Device

/-- `name || device.name` (an empty explicit name is falsy in JS). -/
def jsOrName (name : Option String) (fallback : String) : String :=
  match name with
  | some n => if n.isEmpty then fallback else n
  | none => fallback

/-- `clone`: resolve both names, rewrite the first entity alias (first key of
`configuration.entityAliases`) to the target device, rename the dashboard,
drop its id and post it. -/
def clone (env : CloneEnv) (name : Option String) (dashboardData : JVal) :
    Except CloneExit JVal :=
  match env.dashboards with
  | [] => .error .dashboardNotFound
  | _dashboard :: _ =>
    match env.devices with
    | [] => .error .deviceNotFound
    | device :: _ =>
      let clonedDashboardName := jsOrName name device.name
      match jsProp dashboardData "configuration" with
      | .error _ => .error .thrown
      | .ok none => .error .thrown
      | .ok (some c) =>
        match jsProp c "entityAliases" with
        | .error _ => .error .thrown
        | .ok none => .error .thrown
        | .ok (some (.obj ((k0, _) :: _))) =>
          match jsSetPath dashboardData
              ["configuration", "entityAliases", k0, "filter", "singleEntity"]
              "id" (.str device.id.id) with
          | .error _ => .error .thrown
          | .ok d1 =>
            match jsSetPath d1 ["configuration", "entityAliases", k0] "alias"
                (.str device.name) with
            | .error _ => .error .thrown
            | .ok d2 =>
              match jsSetPath d2 ["configuration", "states", "default"] "name"
                  (.str clonedDashboardName) with
              | .error _ => .error .thrown
              | .ok d3 =>
                match jsSetProp d3 "title" (.str clonedDashboardName) with
                | .error _ => .error .thrown
                | .ok d4 =>
                  match jsSetProp d4 "name" (.str clonedDashboardName) with
                  | .error _ => .error .thrown
                  | .ok d5 => .ok (delField d5 "id")
        | .ok (some _) => .error .thrown

/-- Observation of a clone outcome's body at a path. -/
def cloneGet (r : Except CloneExit JVal) (path : List String) : Option JVal :=
  match r with
  | .ok body => jsGetPath body path
  | .error _ => none

/-! ### Label -/

/-- JS property key coercion for `labels[x]` when `x` is not a string. -/
def jsPropKey : Option JVal → String
  | none => "undefined"
  | some .null => "null"
  | some (.str s) => s
  | some (.bool b) => if b then "true" else "false"
  | some (.num n) => toString n
  | some (.arr _) => ""
  | some (.obj _) => "[object Object]"

/-- Field read used after a successful object destructuring. -/
def jsGetFromVal (v : JVal) (k : String) : Option JVal :=
  match v with
  | .obj fs => objGet fs k
  | _ => none

/-- `x.length === 1` (`null` throws; strings and arrays have lengths; an
object may carry its own `length` field). -/
def jsLengthIsOne : JVal → Except Unit Bool
  | .null => .error ()
  | .arr xs => .ok (xs.length == 1)
  | .str s => .ok (s.length == 1)
  | .obj fs => .ok (match objGet fs "length" with
      | some (.num n) => n == 1
      | _ => false)
  | _ => .ok false

/-- `x[i]` for a numeric index. -/
def jsIndexNat : JVal → Nat → Except Unit (Option JVal)
  | .null, _ => .error ()
  | .arr xs, i => .ok xs[i]?
  | .obj fs, i => .ok (objGet fs (toString i))
  | .str s, i => .ok ((s.toList[i]?).map (fun ch => JVal.str (String.mk [ch])))
  | _, _ => .ok none

/-- One `dataKeys.forEach(({ name }, j) => ...)` body of `label`:
`dataKeys[j].label = labels[name] || dataKeys[j].label`. -/
def labelDataKey (labels : JVal) (k : JVal) : Except Unit JVal :=
  match k with
  | .null => .error ()
  | .obj fs =>
    match jsProp labels (jsPropKey (objGet fs "name")) with
    | .error _ => .error ()
    | .ok looked =>
      let newLabel := if jsFalsy looked then objGet fs "label" else looked
      match newLabel with
      | some v => .ok (.obj (objSet fs "label" v))
      | none => .ok (.obj (objDel fs "label"))
  | _ => .error ()

/-- One `datasources.forEach(({ dataKeys }, i) => ...)` body of `label`. -/
def labelDatasource (labels : JVal) (el : JVal) : Except Unit JVal :=
  match el with
  | .null => .error ()
  | .obj fs =>
    match objGet fs "dataKeys" with
    | some (.arr ks) =>
      match ks.mapM (labelDataKey labels) with
      | .error _ => .error ()
      | .ok ks2 => .ok (.obj (objSet fs "dataKeys" (.arr ks2)))
    | _ => .error ()
  | _ => .error ()

def labelDatasources (labels : JVal) (elems : List JVal) : Except Unit (List JVal) :=
  elems.mapM (labelDatasource labels)

/-- The per-widget body of `label`'s `Object.keys(widgets).forEach` loop.
For `type === 'rpc'` the settings key is relabeled (hiding the widget title);
the `else if (widget.type === 'latest' || 'timeseries')` test of the source
compares against `'latest'` and then ors the result with the truthy literal
`'timeseries'`, so the branch is taken by every non-rpc widget. -/
def labelWidget (labels : JVal) (widget : JVal) : Except Unit JVal :=
  match jsProp widget "type" with
  | .error _ => .error ()
  | .ok tyOpt =>
    if (match tyOpt with
        | some (.str ty) => ty == "rpc"
        | _ => false) then
      match jsProp widget "config" with
      | .error _ => .error ()
      | .ok cfg =>
        match jsPropOpt cfg "settings" with
        | .error _ => .error ()
        | .ok none => .error ()
        | .ok (some .null) => .error ()
        | .ok (some sv) =>
          let key := jsOrOpt (jsGetFromVal sv "valueKey")
            (jsOrOpt (jsGetFromVal sv "valueAttribute") (jsGetFromVal sv "method"))
          match jsSetPath widget ["config"] "showTitle" (.bool false) with
          | .error _ => .error ()
          | .ok w1 =>
            match jsProp labels (jsPropKey key) with
            | .error _ => .error ()
            | .ok looked =>
              let newTitle : Option JVal :=
                match looked with
                | none => jsGetPath w1 ["config", "settings", "title"]
                | some .null => jsGetPath w1 ["config", "settings", "title"]
                | some v => some v
              match newTitle with
              | some v => jsSetPath w1 ["config", "settings"] "title" v
              | none => jsDelPath w1 ["config", "settings"] "title"
    else
      match jsProp widget "config" with
      | .error _ => .error ()
      | .ok cfg =>
        match jsPropOpt cfg "datasources" with
        | .error _ => .error ()
        | .ok none => .error ()
        | .ok (some dsv) =>
          match jsLengthIsOne dsv with
          | .error _ => .error ()
          | .ok true =>
            match jsIndexNat dsv 0 with
            | .error _ => .error ()
            | .ok d0 =>
              match jsPropOpt d0 "dataKeys" with
              | .error _ => .error ()
              | .ok none => .error ()
              | .ok (some dkv) =>
                match jsIndexNat dkv 0 with
                | .error _ => .error ()
                | .ok k0 =>
                  match jsPropOpt k0 "name" with
                  | .error _ => .error ()
                  | .ok nameVal =>
                    match jsProp labels (jsPropKey nameVal) with
                    | .error _ => .error ()
                    | .ok looked =>
                      let newTitle :=
                        if jsFalsy looked then jsGetPath widget ["config", "title"]
                        else looked
                      match newTitle with
                      | some v => jsSetPath widget ["config"] "title" v
                      | none => jsDelPath widget ["config"] "title"
          | .ok false =>
            match dsv with
            | .arr elems =>
              match labelDatasources labels elems with
              | .error _ => .error ()
              | .ok elems2 => jsSetPath widget ["config"] "datasources" (.arr elems2)
            | _ => .error ()

/-- The whole `Object.keys(widgets).forEach` loop of `label`. -/
def labelWidgets (labels : JVal) (widgets : List (String × JVal)) :
    Except Unit (List (String × JVal)) :=
  widgets.mapM (fun p => (labelWidget labels p.2).map (fun w => (p.1, w)))

/-- `label` after both names resolved and `LABELS` fetched: rewrite every
widget of `configuration.widgets` and return the dashboard body that is posted
back. -/
def labelDashboard (labels : JVal) (dashboardData : JVal) : Except Unit JVal :=
  match jsProp dashboardData "configuration" with
  | .error _ => .error ()
  | .ok none => .error ()
  | .ok (some c) =>
    match jsProp c "widgets" with
    | .error _ => .error ()
    | .ok none => .error ()
    | .ok (some (.obj ws)) =>
      match labelWidgets labels ws with
      | .error _ => .error ()
      | .ok ws2 => .ok (dashboardData.set "configuration" (c.set "widgets" (.obj ws2)))
    | .ok (some (.arr ws)) =>
      match ws.mapM (labelWidget labels) with
      | .error _ => .error ()
      | .ok ws2 => .ok (dashboardData.set "configuration" (c.set "widgets" (.arr ws2)))
    | .ok (some (.str s)) =>
      if s.isEmpty then .ok (dashboardData.set "configuration" (c.set "widgets" (.str s)))
      else .error ()
    | .ok (some .null) => .error ()
    | .ok (some w) => .ok (dashboardData.set "configuration" (c.set "widgets" w))

/-! ### Concrete scenarios used by counterexamples and witnesses -/

/-- A resolver that finds nothing. -/
def noResolver : Option JVal → Option String := fun _ => none

/-- The existing device's credential record on the target. -/
def c1Creds : List (String × JVal) :=
  [("id", .str "cred-1"), ("deviceId", .str "dev-9"),
   ("credentialsType", .str "ACCESS_TOKEN"), ("credentialsId", .str "old-token")]

/-- Device-restore environment where creation fails with error code 31 and the
name search finds the existing device. -/
def c1Env : RestoreDeviceEnv :=
  { createResult := .error ⟨some 31, "Device with such name already exists!"⟩
    searchResult := [⟨⟨"dev-9"⟩, "sensor"⟩]
    credResult := .ok c1Creds
    attrOk := fun _ _ => true }

/-- A stored device file with no attributes. -/
def c1File : DeviceFile :=
  { accessToken := "new-token", attributes := { server := [], shared := [], client := [] } }

/-- Device-restore environment where creation succeeds. -/
def c4Env : RestoreDeviceEnv :=
  { createResult := .ok ⟨⟨"dev-1"⟩, "sensor"⟩
    searchResult := []
    credResult := .error ⟨none, ""⟩
    attrOk := fun _ _ => true }

/-- A stored device file with server and client attributes but no shared ones. -/
def c4File : DeviceFile :=
  { accessToken := "tok"
    attributes := { server := [⟨"a", .str "1"⟩], shared := [], client := [⟨"c", .num 2⟩] } }

/-- Device-restore environment where creation fails with a non-31 error. -/
def c5Env : RestoreDeviceEnv :=
  { createResult := .error ⟨some 30, "Validation error"⟩
    searchResult := []
    credResult := .error ⟨none, ""⟩
    attrOk := fun _ _ => true }

/-- A stored device file with one server attribute. -/
def c5File : DeviceFile :=
  { accessToken := "tok"
    attributes := { server := [⟨"a", .str "1"⟩], shared := [], client := [] } }

/-- A live dashboard body carrying the installation-local fields. -/
def c3Live : JVal :=
  .obj [("id", .obj [("id", .str "dash-1")]),
        ("createdTime", .num 1700000000000),
        ("tenantId", .obj [("id", .str "tenant-1")]),
        ("name", .str "Main"),
        ("configuration", .obj [])]

/-- A live device-attribute page entry, with its volatile timestamp. -/
def c3ServerAttrs : List JVal :=
  [.obj [("key", .str "temp"), ("value", .num 20), ("lastUpdateTs", .num 1700000000000)]]

def c3Creds : JVal := .obj [("credentialsId", .str "tok-1")]

def c3Device : Device := ⟨⟨"dev-1"⟩, "Sensor"⟩

/-- Resolver of the C2 witness scenario: only device name `D1` exists. -/
def c2rd : Option JVal → Option String := fun v =>
  match v with
  | some (.str "D1") => some "dev-live"
  | _ => none

def c2SingleEntityFields : List (String × JVal) :=
  [("entityType", .str "DEVICE"), ("id", .str "stale-id")]

def c2FilterFields : List (String × JVal) :=
  [("type", .str "singleEntity"), ("singleEntity", .obj c2SingleEntityFields)]

/-- A single-entity DEVICE alias recording device name `D1`. -/
def c2AliasFields : List (String × JVal) :=
  [("filter", .obj c2FilterFields), ("alias", .str "D1")]

/-- A stored dashboard with one device alias and no assigned customers. -/
def c2Dashboard : JVal :=
  .obj [("id", .str "old-id"),
        ("name", .str "Main"),
        ("configuration", .obj [("entityAliases", .obj [("k1", .obj c2AliasFields)])])]

def c6Entry (title oldId : String) : JVal :=
  .obj [("title", .str title), ("customerId", .obj [("id", .str oldId)])]

/-- A stored dashboard assigned to two customers, neither of which exists on
the target. -/
def c6Dashboard : JVal :=
  .obj [("name", .str "Ops"),
        ("configuration", .obj [("entityAliases", .obj [])]),
        ("assignedCustomers", .arr [c6Entry "Alpha" "cust-1", c6Entry "Beta" "cust-2"])]

/-- The LABELS attribute of the C7 scenario. -/
def c7Labels : JVal := .obj [("temp", .str "Temperature")]

/-- A widget whose kind is `map` — neither `rpc`, `latest` nor `timeseries`. -/
def c7MapWidget : JVal :=
  .obj [("type", .str "map"),
        ("config", .obj
          [("datasources", .arr [.obj [("dataKeys", .arr [.obj [("name", .str "temp")]])]]),
           ("title", .str "Old title")])]

/-- The same widget after `label` ran over it: its title was rewritten. -/
def c7MapWidgetAfter : JVal :=
  .obj [("type", .str "map"),
        ("config", .obj
          [("datasources", .arr [.obj [("dataKeys", .arr [.obj [("name", .str "temp")]])]]),
           ("title", .str "Temperature")])]

def c7Dashboard : JVal :=
  .obj [("name", .str "Ops"), ("configuration", .obj [("widgets", .obj [("w1", c7MapWidget)])])]

def c7DashboardAfter : JVal :=
  .obj [("name", .str "Ops"), ("configuration", .obj [("widgets", .obj [("w1", c7MapWidgetAfter)])])]

def c8Bundle : WidgetBundle := ⟨"my_bundle", "My Bundle", ⟨"tenant-1"⟩⟩

def c8BundleData : String → JVal := fun _ => .arr []

def c9Env : CloneEnv :=
  { dashboards := [⟨⟨"dash-1"⟩, "base"⟩], devices := [⟨⟨"dev-7"⟩, "Sensor-7"⟩] }

/-- The fetched body of the dashboard being cloned. -/
def c9Dashboard : JVal :=
  .obj [("id", .obj [("id", .str "dash-1")]),
        ("name", .str "Base"),
        ("title", .str "Base"),
        ("configuration", .obj
          [("entityAliases", .obj
             [("a1", .obj [("alias", .str "OldDev"),
                ("filter", .obj [("type", .str "singleEntity"),
                  ("singleEntity", .obj [("entityType", .str "DEVICE"),
                                         ("id", .str "old-dev")])])])]),
           ("states", .obj [("default", .obj [("name", .str "Base")])])])]

/-! ## Object and path lemmas -/

theorem objGet_objSet_self (fs : List (String × JVal)) (k : String) (v : JVal) :
    objGet (objSet fs k v) k = some v := by
  induction fs with
  | nil => simp [objSet, objGet]
  | cons p t ih =>
    by_cases h : p.1 == k
    · simp [objSet, h, objGet]
    · simp [objSet, h, objGet, ih]

theorem objGet_objSet_ne (fs : List (String × JVal)) (k k' : String) (v : JVal)
    (h : k' ≠ k) : objGet (objSet fs k v) k' = objGet fs k' := by
  induction fs with
  | nil =>
    have hk : (k == k') = false := by simpa using (Ne.symm h)
    simp [objSet, objGet, hk]
  | cons p t ih =>
    by_cases hp : p.1 == k
    · have hpk : p.1 = k := by simpa using hp
      have h1 : (k == k') = false := by simpa using (Ne.symm h)
      have h2 : (p.1 == k') = false := by simp [hpk]; exact (Ne.symm h)
      simp [objSet, hp, objGet, h1, h2]
    · simp [objSet, hp, objGet, ih]

theorem objDel_cons (p : String × JVal) (t : List (String × JVal)) (k : String) :
    objDel (p :: t) k = if p.1 == k then objDel t k else p :: objDel t k := by
  by_cases h : p.1 = k <;> simp [objDel, List.filter_cons, h]

theorem objGet_objDel_self (fs : List (String × JVal)) (k : String) :
    objGet (objDel fs k) k = none := by
  induction fs with
  | nil => simp [objDel, objGet]
  | cons p t ih =>
    rw [objDel_cons]
    by_cases h : p.1 == k
    · simp [h, ih]
    · simp [objGet, h, ih]

theorem objGet_objDel_ne (fs : List (String × JVal)) (k k' : String)
    (h : k' ≠ k) : objGet (objDel fs k) k' = objGet fs k' := by
  induction fs with
  | nil => simp [objDel, objGet]
  | cons p t ih =>
    rw [objDel_cons]
    by_cases hp : p.1 == k
    · have hpk : p.1 = k := by simpa using hp
      have h2 : (p.1 == k') = false := by
        simp [hpk]
        exact (Ne.symm h)
      simp [hpk, objGet, h2, ih, Ne.symm h]
    · simp [objGet, hp, ih]

theorem get?_delField_self (j : JVal) (k : String) : (delField j k).get? k = none := by
  cases j <;> simp [delField, JVal.get?, objGet_objDel_self]

theorem get?_delField_ne (j : JVal) (k k' : String) (h : k' ≠ k) :
    (delField j k).get? k' = j.get? k' := by
  cases j <;> simp [delField, JVal.get?, objGet_objDel_ne _ _ _ h]

theorem jsGetPath_delField_ne (j : JVal) (k g : String) (gs : List String) (h : g ≠ k) :
    jsGetPath (delField j k) (g :: gs) = jsGetPath j (g :: gs) := by
  simp [jsGetPath, get?_delField_ne j k g h]

theorem jsSetProp_eq_ok {j j' : JVal} {k : String} {v : JVal}
    (h : jsSetProp j k v = .ok j') : ∃ fs, j = .obj fs ∧ j' = .obj (objSet fs k v) := by
  cases j with
  | obj fs => exact ⟨fs, rfl, by simpa [jsSetProp] using h.symm⟩
  | null => simp [jsSetProp] at h
  | bool b => simp [jsSetProp] at h
  | num n => simp [jsSetProp] at h
  | str s => simp [jsSetProp] at h
  | arr xs => simp [jsSetProp] at h

theorem jsProp_eq_ok_some {j : JVal} {k : String} {v : JVal}
    (h : jsProp j k = .ok (some v)) : ∃ fs, j = .obj fs ∧ objGet fs k = some v := by
  cases j with
  | obj fs => exact ⟨fs, rfl, by simpa [jsProp] using h⟩
  | null => simp [jsProp] at h
  | bool b => simp [jsProp] at h
  | num n => simp [jsProp] at h
  | str s => simp [jsProp] at h
  | arr xs => simp [jsProp] at h

theorem jsSetPath_cons_ok {j j' : JVal} {p : String} {ps : List String} {k : String}
    {v : JVal} (h : jsSetPath j (p :: ps) k v = .ok j') :
    ∃ inner inner2, jsProp j p = .ok (some inner) ∧ jsSetPath inner ps k v = .ok inner2 ∧
      j' = j.set p inner2 := by
  rw [jsSetPath] at h
  split at h
  · cases h
  · cases h
  · next inner heq =>
    split at h
    · cases h
    · next inner2 heq2 =>
      refine ⟨inner, inner2, heq, heq2, ?_⟩
      simpa using h.symm

theorem jsGetPath_jsSetPath_self (sp : List String) :
    ∀ {j j' : JVal} {k : String} {v : JVal},
      jsSetPath j sp k v = .ok j' → jsGetPath j' (sp ++ [k]) = some v := by
  induction sp with
  | nil =>
    intro j j' k v h
    obtain ⟨fs, rfl, rfl⟩ := jsSetProp_eq_ok (show jsSetProp j k v = .ok j' from h)
    simp [jsGetPath, JVal.get?, objGet_objSet_self]
  | cons p ps ih =>
    intro j j' k v h
    obtain ⟨inner, inner2, hp, hs, rfl⟩ := jsSetPath_cons_ok h
    obtain ⟨fs, rfl, hg⟩ := jsProp_eq_ok_some hp
    simpa [JVal.set, jsGetPath, JVal.get?, objGet_objSet_self] using ih hs

theorem jsGetPath_jsSetPath_diverges (sp : List String) :
    ∀ {j j' : JVal} {k : String} {v : JVal} {gp : List String},
      jsSetPath j sp k v = .ok j' → pathDiverges (sp ++ [k]) gp = true →
      jsGetPath j' gp = jsGetPath j gp := by
  induction sp with
  | nil =>
    intro j j' k v gp h hd
    obtain ⟨fs, rfl, rfl⟩ := jsSetProp_eq_ok (show jsSetProp j k v = .ok j' from h)
    cases gp with
    | nil => cases hd
    | cons g gs =>
      have hkg : k ≠ g := by
        by_contra hEq
        simp [pathDiverges, hEq] at hd
      simp [jsGetPath, JVal.get?, objGet_objSet_ne fs k g v (Ne.symm hkg)]
  | cons p ps ih =>
    intro j j' k v gp h hd
    obtain ⟨inner, inner2, hp, hs, rfl⟩ := jsSetPath_cons_ok h
    obtain ⟨fs, rfl, hg⟩ := jsProp_eq_ok_some hp
    cases gp with
    | nil => cases hd
    | cons g gs =>
      by_cases hpg : p = g
      · subst hpg
        have hd2 : pathDiverges (ps ++ [k]) gs = true := by
          simpa [pathDiverges] using hd
        simp [jsGetPath, JVal.set, JVal.get?, objGet_objSet_self, hg]
        exact ih hs hd2
      · simp [jsGetPath, JVal.set, JVal.get?,
          objGet_objSet_ne fs p g inner2 (Ne.symm hpg)]

/-! ## Device restore lemmas -/

theorem restoreAttrs_of_ok (env : RestoreDeviceEnv) (file : DeviceFile)
    (did : Option String) (hok : ∀ i s, env.attrOk i s = true) :
    restoreAttrs env file did =
      ((if file.attributes.server.length > 0 then
          [ApiCall.saveAttributes did "SERVER_SCOPE"
            (getAttributesObject file.attributes.server)] else []) ++
       (if file.attributes.shared.length > 0 then
          [ApiCall.saveAttributes did "SHARED_SCOPE"
            (getAttributesObject file.attributes.shared)] else []) ++
       (if file.attributes.client.length > 0 then
          [ApiCall.saveAttributes did "CLIENT_SCOPE"
            (getAttributesObject file.attributes.client)] else []),
       false) := by
  simp only [restoreAttrs, attrStep, hok, if_true]
  split_ifs <;> simp

theorem mem_attrStep {env : RestoreDeviceEnv} {did : Option String} {scope : String}
    {l : List AttrItem} {rest : List ApiCall × Bool} {c : ApiCall}
    (h : c ∈ (attrStep env did scope l rest).1) :
    c = ApiCall.saveAttributes did scope (getAttributesObject l) ∨ c ∈ rest.1 := by
  unfold attrStep at h
  split_ifs at h with h1 h2
  · rcases List.mem_cons.mp h with h3 | h3
    · exact Or.inl h3
    · exact Or.inr h3
  · simpa using Or.inl (List.mem_singleton.mp h)
  · exact Or.inr h

theorem mem_restoreAttrs {env : RestoreDeviceEnv} {file : DeviceFile}
    {did : Option String} {c : ApiCall} (h : c ∈ (restoreAttrs env file did).1) :
    ∃ scope o, c = ApiCall.saveAttributes did scope o := by
  unfold restoreAttrs at h
  rcases mem_attrStep h with h1 | h
  · exact ⟨_, _, h1⟩
  rcases mem_attrStep h with h1 | h
  · exact ⟨_, _, h1⟩
  rcases mem_attrStep h with h1 | h
  · exact ⟨_, _, h1⟩
  simp at h

theorem saveAttributes_mem_calls (env : RestoreDeviceEnv) (file : DeviceFile)
    (did : Option String) (pre : List ApiCall)
    (hpre : ∀ i s o, ApiCall.saveAttributes i s o ∉ pre)
    (hok : ∀ i s, env.attrOk i s = true) :
    ((ApiCall.saveAttributes did "SERVER_SCOPE" (getAttributesObject file.attributes.server) ∈
        pre ++ (restoreAttrs env file did).1) ↔ file.attributes.server ≠ []) ∧
    (file.attributes.server = [] →
      ∀ i o, ApiCall.saveAttributes i "SERVER_SCOPE" o ∉ pre ++ (restoreAttrs env file did).1) ∧
    ((ApiCall.saveAttributes did "SHARED_SCOPE" (getAttributesObject file.attributes.shared) ∈
        pre ++ (restoreAttrs env file did).1) ↔ file.attributes.shared ≠ []) ∧
    (file.attributes.shared = [] →
      ∀ i o, ApiCall.saveAttributes i "SHARED_SCOPE" o ∉ pre ++ (restoreAttrs env file did).1) ∧
    ((ApiCall.saveAttributes did "CLIENT_SCOPE" (getAttributesObject file.attributes.client) ∈
        pre ++ (restoreAttrs env file did).1) ↔ file.attributes.client ≠ []) ∧
    (file.attributes.client = [] →
      ∀ i o, ApiCall.saveAttributes i "CLIENT_SCOPE" o ∉ pre ++ (restoreAttrs env file did).1) := by
  rw [restoreAttrs_of_ok env file did hok]
  by_cases h1 : file.attributes.server = [] <;>
    by_cases h2 : file.attributes.shared = [] <;>
      by_cases h3 : file.attributes.client = [] <;>
        simp_all [List.length_pos, List.mem_append, hpre]

/-! ## Claim theorems: device restore -/

/-- C10: device restore always submits the created device as
`{ name: <file name>, type: 'AT_CORE' }` with the stored access token; the
stored file's content cannot influence the `type`, and the source device's
type is not preserved. -/
theorem c10_hardcoded_device_type (env : RestoreDeviceEnv) (fileName : String)
    (file : DeviceFile) :
    (restoreDevice env fileName file).calls.head? =
      some (ApiCall.createDevice (dropExtension fileName) "AT_CORE" file.accessToken) := by
  unfold restoreDevice
  cases env.createResult with
  | ok d => simp
  | error e =>
    by_cases h : e.errorCode = some 31
    · simp only [h, if_pos rfl]
      cases env.searchResult <;> simp
    · simp [h]

/-- C5: with a stored file holding one server attribute and a device creation
failing with error code 30, the code does not skip the attribute phase: it
issues a `saveDeviceAttributes` call whose device id is the still-`null`
`deviceId`, contradicting the claim that no attribute write happens. -/
theorem c5_attribute_write_with_null_device :
    restoreDevice c5Env "sensor.json" c5File =
      { deviceId := none
        calls := [ApiCall.createDevice "sensor" "AT_CORE" "tok",
                  ApiCall.saveAttributes none "SERVER_SCOPE" [("a", JVal.str "1")]]
        aborted := false } := by rfl

/-- C1: when device creation fails and the platform error code is 31, restore
looks the device up by the stored file's name, repairs only the
`credentialsId` field of the existing credential record (all other fields are
spread through unchanged) to the stored access token, and the device's restore
proceeds (identity established, no abort when the attribute writes resolve);
an error code other than 31 never leads to a credential write. -/
theorem c1_code31_credential_repair (env : RestoreDeviceEnv) (fileName : String)
    (file : DeviceFile) (e : ApiError) (hcreate : env.createResult = .error e) :
    ((e.errorCode = some 31) →
      ∀ (d : Device) (ds : List Device) (credentials : List (String × JVal)),
        env.searchResult = d :: ds → env.credResult = .ok credentials →
        (restoreDevice env fileName file).deviceId = some d.id.id ∧
        ApiCall.searchDevice (dropExtension fileName) ∈ (restoreDevice env fileName file).calls ∧
        ApiCall.saveCredentials (objSet credentials "credentialsId" (.str file.accessToken)) ∈
          (restoreDevice env fileName file).calls ∧
        objGet (objSet credentials "credentialsId" (.str file.accessToken)) "credentialsId" =
          some (.str file.accessToken) ∧
        (∀ k2, k2 ≠ "credentialsId" →
          objGet (objSet credentials "credentialsId" (.str file.accessToken)) k2 =
            objGet credentials k2) ∧
        ((∀ i s, env.attrOk i s = true) → (restoreDevice env fileName file).aborted = false)) ∧
    (e.errorCode ≠ some 31 →
      ∀ cr, ApiCall.saveCredentials cr ∉ (restoreDevice env fileName file).calls) := by
  constructor
  · intro h31 d ds credentials hsearch hcred
    refine ⟨?_, ?_, ?_, ?_, ?_, ?_⟩
    · simp [restoreDevice, hcreate, h31, hsearch]
    · simp [restoreDevice, hcreate, h31, hsearch, hcred]
    · simp [restoreDevice, hcreate, h31, hsearch, hcred]
    · exact objGet_objSet_self credentials "credentialsId" (.str file.accessToken)
    · intro k2 hk2
      exact objGet_objSet_ne credentials "credentialsId" k2 (.str file.accessToken) hk2
    · intro hok
      simp [restoreDevice, hcreate, h31, hsearch, hcred,
        restoreAttrs_of_ok env file (some d.id.id) hok]
  · intro hne cr hmem
    simp only [restoreDevice, hcreate, if_neg hne] at hmem
    rcases List.mem_cons.mp hmem with h1 | h2
    · exact absurd h1 (by simp)
    · obtain ⟨s, o, hEq⟩ := mem_restoreAttrs h2
      exact absurd hEq (by simp)

/-- C1 witness: a concrete duplicate-device scenario where the repair path
runs and only `credentialsId` is replaced. -/
theorem c1_code31_credential_repair_witness :
    (restoreDevice c1Env "sensor.json" c1File).deviceId = some "dev-9" ∧
    ApiCall.saveCredentials (objSet c1Creds "credentialsId" (.str "new-token")) ∈
      (restoreDevice c1Env "sensor.json" c1File).calls ∧
    (restoreDevice c1Env "sensor.json" c1File).aborted = false := by
  have h := c1_code31_credential_repair c1Env "sensor.json" c1File
    ⟨some 31, "Device with such name already exists!"⟩ rfl
  have h2 := h.1 rfl ⟨⟨"dev-9"⟩, "sensor"⟩ [] c1Creds rfl rfl
  exact ⟨h2.1, h2.2.2.1, h2.2.2.2.2.2 (fun i s => rfl)⟩

/-- C4: once the device's identity is established (created, or located through
the duplicate branch) and the platform accepts the writes, an attribute write
for a scope is issued exactly when the stored scope array is non-empty, and an
empty stored scope produces no write at all for that scope. -/
theorem c4_scope_writes_iff_nonempty (env : RestoreDeviceEnv) (fileName : String)
    (file : DeviceFile) (hid : identityEstablished env)
    (hok : ∀ i s, env.attrOk i s = true) :
    ((ApiCall.saveAttributes (restoreDevice env fileName file).deviceId "SERVER_SCOPE"
        (getAttributesObject file.attributes.server) ∈
        (restoreDevice env fileName file).calls) ↔ file.attributes.server ≠ []) ∧
    (file.attributes.server = [] →
      ∀ i o, ApiCall.saveAttributes i "SERVER_SCOPE" o ∉ (restoreDevice env fileName file).calls) ∧
    ((ApiCall.saveAttributes (restoreDevice env fileName file).deviceId "SHARED_SCOPE"
        (getAttributesObject file.attributes.shared) ∈
        (restoreDevice env fileName file).calls) ↔ file.attributes.shared ≠ []) ∧
    (file.attributes.shared = [] →
      ∀ i o, ApiCall.saveAttributes i "SHARED_SCOPE" o ∉ (restoreDevice env fileName file).calls) ∧
    ((ApiCall.saveAttributes (restoreDevice env fileName file).deviceId "CLIENT_SCOPE"
        (getAttributesObject file.attributes.client) ∈
        (restoreDevice env fileName file).calls) ↔ file.attributes.client ≠ []) ∧
    (file.attributes.client = [] →
      ∀ i o, ApiCall.saveAttributes i "CLIENT_SCOPE" o ∉ (restoreDevice env fileName file).calls) := by
  rcases hid with ⟨d, hcr⟩ | ⟨e, d, ds, hcr, h31, hsearch⟩
  · have hpre : ∀ i s o, ApiCall.saveAttributes i s o ∉
        [ApiCall.createDevice (dropExtension fileName) "AT_CORE" file.accessToken] := by
      simp
    have haux := saveAttributes_mem_calls env file (some d.id.id)
      [ApiCall.createDevice (dropExtension fileName) "AT_CORE" file.accessToken] hpre hok
    simpa [restoreDevice, hcr] using haux
  · cases hcred : env.credResult with
    | ok credentials =>
      have hpre : ∀ i s o, ApiCall.saveAttributes i s o ∉
          [ApiCall.createDevice (dropExtension fileName) "AT_CORE" file.accessToken,
           ApiCall.searchDevice (dropExtension fileName),
           ApiCall.getCredentials d.id.id,
           ApiCall.saveCredentials (objSet credentials "credentialsId" (.str file.accessToken))] := by
        simp
      have haux := saveAttributes_mem_calls env file (some d.id.id)
        [ApiCall.createDevice (dropExtension fileName) "AT_CORE" file.accessToken,
         ApiCall.searchDevice (dropExtension fileName),
         ApiCall.getCredentials d.id.id,
         ApiCall.saveCredentials (objSet credentials "credentialsId" (.str file.accessToken))]
        hpre hok
      simpa [restoreDevice, hcr, h31, hsearch, hcred] using haux
    | error e2 =>
      have hpre : ∀ i s o, ApiCall.saveAttributes i s o ∉
          [ApiCall.createDevice (dropExtension fileName) "AT_CORE" file.accessToken,
           ApiCall.searchDevice (dropExtension fileName),
           ApiCall.getCredentials d.id.id] := by
        simp
      have haux := saveAttributes_mem_calls env file (some d.id.id)
        [ApiCall.createDevice (dropExtension fileName) "AT_CORE" file.accessToken,
         ApiCall.searchDevice (dropExtension fileName),
         ApiCall.getCredentials d.id.id] hpre hok
      simpa [restoreDevice, hcr, h31, hsearch, hcred] using haux

/-- C4 witness: a created device with a non-empty server scope, an empty
shared scope and a non-empty client scope. -/
theorem c4_scope_writes_iff_nonempty_witness :
    ((ApiCall.saveAttributes (restoreDevice c4Env "sensor.json" c4File).deviceId "SERVER_SCOPE"
        (getAttributesObject c4File.attributes.server) ∈
        (restoreDevice c4Env "sensor.json" c4File).calls) ↔ c4File.attributes.server ≠ []) ∧
    ((ApiCall.saveAttributes (restoreDevice c4Env "sensor.json" c4File).deviceId "SHARED_SCOPE"
        (getAttributesObject c4File.attributes.shared) ∈
        (restoreDevice c4Env "sensor.json" c4File).calls) ↔ c4File.attributes.shared ≠ []) ∧
    ((ApiCall.saveAttributes (restoreDevice c4Env "sensor.json" c4File).deviceId "CLIENT_SCOPE"
        (getAttributesObject c4File.attributes.client) ∈
        (restoreDevice c4Env "sensor.json" c4File).calls) ↔ c4File.attributes.client ≠ []) := by
  have h := c4_scope_writes_iff_nonempty c4Env "sensor.json" c4File
    (Or.inl ⟨⟨⟨"dev-1"⟩, "sensor"⟩, rfl⟩) (fun i s => rfl)
  exact ⟨h.1, h.2.2.1, h.2.2.2.2.1⟩

/-! ## Claim theorems: export -/

/-- C3 counterexample: the dashboard exporter writes the live body verbatim;
at a live body carrying `id`, `createdTime` and `tenantId` the written content
differs from the body with those fields stripped, refuting the claimed
equality. -/
theorem c3_export_strip_counterexample :
    (backupDashboard ["tenants", "T"] ⟨⟨"dash-1"⟩, "Main"⟩ c3Live).content ≠
      stripRestoreFields c3Live := by
  rw [show stripRestoreFields c3Live =
    .obj [("name", .str "Main"), ("configuration", .obj [])] from rfl]
  simp [backupDashboard, c3Live]

/-- C3 amended: exported dashboard files contain the live body verbatim (the
`id`/`createdTime`/`tenantId` stripping happens at restore and convert time,
not at export); the exported device file is the composite
`{accessToken, attributes}` record in which every attribute entry has its
`lastUpdateTs` removed and all other entry fields preserved. -/
theorem c3_amended_export_bodies (tenantDir : List String) (dsum : DashSummary)
    (dashboardData : JVal) (device : Device)
    (serverAttributes sharedAttributes clientAttributes : List JVal) (credentials : JVal) :
    (backupDashboard tenantDir dsum dashboardData).content = dashboardData ∧
    jsGetPath (backupDevice tenantDir device serverAttributes sharedAttributes
        clientAttributes credentials).content ["attributes", "server"] =
      some (.arr (serverAttributes.map (fun item => delField item "lastUpdateTs"))) ∧
    (∀ item : JVal, (delField item "lastUpdateTs").get? "lastUpdateTs" = none) ∧
    (∀ (item : JVal) (k : String), k ≠ "lastUpdateTs" →
      (delField item "lastUpdateTs").get? k = item.get? k) := by
  refine ⟨rfl, ?_, ?_, ?_⟩
  · cases hc : credentials.get? "credentialsId" <;>
      · simp only [backupDevice]
        rw [hc]
        simp [jsGetPath, JVal.get?, objGet]
  · intro item
    exact get?_delField_self item "lastUpdateTs"
  · intro item k hk
    exact get?_delField_ne item "lastUpdateTs" k hk

/-- C3 amended witness: a concrete dashboard body is exported verbatim and a
concrete device attribute entry loses exactly its `lastUpdateTs` field. -/
theorem c3_amended_export_bodies_witness :
    (backupDashboard ["tenants", "T"] ⟨⟨"dash-1"⟩, "Main"⟩ c3Live).content = c3Live ∧
    jsGetPath (backupDevice ["tenants", "T"] c3Device c3ServerAttrs [] [] c3Creds).content
        ["attributes", "server"] =
      some (.arr (c3ServerAttrs.map (fun item => delField item "lastUpdateTs"))) ∧
    (delField (JVal.obj [("key", .str "temp"), ("value", .num 20),
        ("lastUpdateTs", .num 1700000000000)]) "lastUpdateTs").get? "key" =
      (JVal.obj [("key", .str "temp"), ("value", .num 20),
        ("lastUpdateTs", .num 1700000000000)]).get? "key" := by
  have h := c3_amended_export_bodies ["tenants", "T"] ⟨⟨"dash-1"⟩, "Main"⟩ c3Live
    c3Device c3ServerAttrs [] [] c3Creds
  exact ⟨h.1, h.2.1, h.2.2.2 _ "key" (by simp)⟩

/-- C8: a widget bundle's file is written under the tenant's `widgets/`
directory exactly when the bundle's `tenantId` equals the exporting account's
tenant id; every written file stems from an owned bundle, so a system-level
bundle never contributes a file. -/
theorem c8_widget_bundle_tenant_filter (tenantDir : List String) (accountTenantId : String)
    (widgetBundles : List WidgetBundle) (bundleData : String → JVal) :
    (∀ w ∈ backupWidgets tenantDir accountTenantId widgetBundles bundleData,
      ∃ wb, wb ∈ widgetBundles ∧ wb.tenantId.id = accountTenantId ∧
        w = bundleWrite tenantDir bundleData wb) ∧
    (∀ wb ∈ widgetBundles, wb.tenantId.id = accountTenantId →
      bundleWrite tenantDir bundleData wb ∈
        backupWidgets tenantDir accountTenantId widgetBundles bundleData) := by
  constructor
  · intro w hw
    simp only [backupWidgets, List.mem_map, List.mem_filter] at hw
    obtain ⟨wb, ⟨hmem, heq⟩, rfl⟩ := hw
    have heq2 : accountTenantId = wb.tenantId.id := by simpa using heq
    exact ⟨wb, hmem, heq2.symm, rfl⟩
  · intro wb hmem heq
    simp only [backupWidgets, List.mem_map, List.mem_filter]
    exact ⟨wb, ⟨hmem, by simp [heq]⟩, rfl⟩

/-- C8 witness: a bundle owned by the exporting tenant is written. -/
theorem c8_widget_bundle_tenant_filter_witness :
    bundleWrite ["tenants", "T"] c8BundleData c8Bundle ∈
      backupWidgets ["tenants", "T"] "tenant-1" [c8Bundle] c8BundleData := by
  have h := (c8_widget_bundle_tenant_filter ["tenants", "T"] "tenant-1" [c8Bundle] c8BundleData).2
  exact h c8Bundle (List.mem_singleton.mpr rfl) rfl

/-! ## Claim theorems: dashboard restore and label -/

/-- C2: during dashboard restore, an entity alias whose filter is a
single-entity DEVICE reference has its embedded `filter.singleEntity.id`
rewritten to the live id resolved from the alias's recorded name; when the
resolver finds no device the alias is returned completely unchanged; and the
dashboard is still saved, with the alias map replaced by the processed
aliases. -/
theorem c2_alias_rewrite (resolveDevice resolveCustomer : Option JVal → Option String) :
    (∀ (af ff sf : List (String × JVal)) (aliasVal : Option JVal) (devId : String),
      objGet af "filter" = some (.obj ff) →
      objGet ff "type" = some (.str "singleEntity") →
      objGet ff "singleEntity" = some (.obj sf) →
      objGet sf "entityType" = some (.str "DEVICE") →
      objGet af "alias" = aliasVal →
      resolveDevice aliasVal = some devId →
      processAlias resolveDevice (.obj af) =
        .ok (.obj (objSet af "filter" (.obj (objSet ff "singleEntity"
          (.obj (objSet sf "id" (.str devId))))))) ∧
      jsGetPath (.obj (objSet af "filter" (.obj (objSet ff "singleEntity"
          (.obj (objSet sf "id" (.str devId))))))) ["filter", "singleEntity", "id"] =
        some (.str devId)) ∧
    (∀ (af ff sf : List (String × JVal)) (aliasVal : Option JVal),
      objGet af "filter" = some (.obj ff) →
      objGet ff "type" = some (.str "singleEntity") →
      objGet ff "singleEntity" = some (.obj sf) →
      objGet sf "entityType" = some (.str "DEVICE") →
      objGet af "alias" = aliasVal →
      resolveDevice aliasVal = none →
      processAlias resolveDevice (.obj af) = .ok (.obj af)) ∧
    (∀ (dashboard : JVal) (dd cc aliases newAliases : List (String × JVal)),
      stripRestoreFields dashboard = .obj dd →
      objGet dd "configuration" = some (.obj cc) →
      objGet cc "entityAliases" = some (.obj aliases) →
      mapAliases resolveDevice aliases = .ok newAliases →
      objGet dd "assignedCustomers" = none →
      restoreDashboard resolveDevice resolveCustomer dashboard =
        some (.obj (objSet dd "configuration" (.obj (objSet cc "entityAliases"
          (.obj newAliases)))))) := by
  refine ⟨?_, ?_, ?_⟩
  · intro af ff sf aliasVal devId h1 h2 h3 h4 h5 h6
    constructor
    · simp [processAlias, jsProp, jsPropOpt, jsSetPath, jsSetProp, JVal.set,
        h1, h2, h3, h4, h5, h6]
    · simp [jsGetPath, JVal.get?, objGet_objSet_self]
  · intro af ff sf aliasVal h1 h2 h3 h4 h5 h6
    simp [processAlias, jsProp, jsPropOpt, h1, h2, h3, h4, h5, h6]
  · intro dashboard dd cc aliases newAliases h1 h2 h3 h4 h5
    have hne : objGet (objSet dd "configuration"
        (JVal.obj (objSet cc "entityAliases" (.obj newAliases)))) "assignedCustomers" =
        objGet dd "assignedCustomers" :=
      objGet_objSet_ne dd "configuration" "assignedCustomers" _ (by decide)
    simp [restoreDashboard, restoreDashboardE, customersStage, jsProp, JVal.set,
      h1, h2, h3, h4, hne, h5, Except.toOption]

/-- C2 witness: a dashboard with one single-entity DEVICE alias recording name
`D1`: the id is rewritten to the live id when `D1` resolves, the alias is left
unchanged under an empty resolver, and the dashboard is still saved. -/
theorem c2_alias_rewrite_witness :
    processAlias c2rd (.obj c2AliasFields) =
      .ok (.obj (objSet c2AliasFields "filter" (.obj (objSet c2FilterFields "singleEntity"
        (.obj (objSet c2SingleEntityFields "id" (.str "dev-live"))))))) ∧
    processAlias noResolver (.obj c2AliasFields) = .ok (.obj c2AliasFields) ∧
    restoreDashboard c2rd noResolver c2Dashboard =
      some (.obj (objSet
        [("name", JVal.str "Main"),
         ("configuration", JVal.obj [("entityAliases", JVal.obj [("k1", JVal.obj c2AliasFields)])])]
        "configuration"
        (.obj (objSet [("entityAliases", JVal.obj [("k1", JVal.obj c2AliasFields)])]
          "entityAliases"
          (.obj [("k1", JVal.obj [("filter", JVal.obj [("type", JVal.str "singleEntity"),
              ("singleEntity", JVal.obj [("entityType", JVal.str "DEVICE"),
                                         ("id", JVal.str "dev-live")])]),
            ("alias", JVal.str "D1")])]))))) := by
  have hA := (c2_alias_rewrite c2rd noResolver).1 c2AliasFields c2FilterFields
    c2SingleEntityFields (some (.str "D1")) "dev-live" rfl rfl rfl rfl rfl rfl
  have hB := (c2_alias_rewrite noResolver noResolver).2.1 c2AliasFields c2FilterFields
    c2SingleEntityFields (some (.str "D1")) rfl rfl rfl rfl rfl rfl
  have hC := (c2_alias_rewrite c2rd noResolver).2.2 c2Dashboard
    [("name", JVal.str "Main"),
     ("configuration", JVal.obj [("entityAliases", JVal.obj [("k1", JVal.obj c2AliasFields)])])]
    [("entityAliases", JVal.obj [("k1", JVal.obj c2AliasFields)])]
    [("k1", JVal.obj c2AliasFields)]
    [("k1", JVal.obj [("filter", JVal.obj [("type", JVal.str "singleEntity"),
        ("singleEntity", JVal.obj [("entityType", JVal.str "DEVICE"),
                                   ("id", JVal.str "dev-live")])]),
      ("alias", JVal.str "D1")])]
    rfl rfl rfl rfl rfl
  exact ⟨hA.1, hB, hC⟩

/-- C6: with two assigned customers neither of which resolves on the target,
the concurrent `splice(index, 1)` calls shift the array under the captured
indices: the first entry is removed but the second survives, so the submitted
dashboard still contains an assignment whose customer id is the stale
`cust-2`, contradicting the claim that every unresolved assignment is
dropped. -/
theorem c6_unresolved_customer_survives :
    restoreDashboard noResolver noResolver c6Dashboard =
      some (.obj [("name", .str "Ops"),
                  ("configuration", .obj [("entityAliases", .obj [])]),
                  ("assignedCustomers", .arr [c6Entry "Beta" "cust-2"])]) ∧
    (c6Entry "Beta" "cust-2").get? "customerId" = some (.obj [("id", JVal.str "cust-2")]) := by
  exact ⟨rfl, rfl⟩

/-- C7: the `label` test `widget.type === 'latest' || 'timeseries'` is always
true, so a widget of kind `map` — neither rpc, latest nor timeseries — is
relabeled: its `config.title` changes from `Old title` to `Temperature`, both
at the single-widget level and in the posted dashboard, contradicting the
claim that only rpc/latest/timeseries widgets are modified. -/
theorem c7_non_latest_widget_rewritten :
    labelWidget c7Labels c7MapWidget = .ok c7MapWidgetAfter ∧
    c7MapWidgetAfter ≠ c7MapWidget ∧
    labelDashboard c7Labels c7Dashboard = .ok c7DashboardAfter := by
  refine ⟨rfl, ?_, rfl⟩
  simp [c7MapWidgetAfter, c7MapWidget]

/-! ## Claim theorems: clone -/

/-- C9: when the dashboard search comes back empty, `clone` exits without
creating anything; likewise when the device search is empty; and when both
resolve, the created body has its first entity alias's embedded id set to the
device's live id and its alias name set to the device's name, is named by the
explicit name argument (falling back to the device name), and has no `id`
field. -/
theorem c9_clone_first_alias (env : CloneEnv) (name : Option String)
    (dashboardData : JVal) :
    (env.dashboards = [] → clone env name dashboardData = .error .dashboardNotFound) ∧
    (∀ dsh t, env.dashboards = dsh :: t → env.devices = [] →
      clone env name dashboardData = .error .deviceNotFound) ∧
    (∀ (dsh : DashSummary) (t : List DashSummary) (device : Device) (dt : List Device)
        (dd cc : List (String × JVal)) (k0 : String)
        (af arest ff sf st df : List (String × JVal)),
      env.dashboards = dsh :: t → env.devices = device :: dt →
      dashboardData = .obj dd →
      objGet dd "configuration" = some (.obj cc) →
      objGet cc "entityAliases" = some (.obj ((k0, .obj af) :: arest)) →
      objGet af "filter" = some (.obj ff) →
      objGet ff "singleEntity" = some (.obj sf) →
      objGet cc "states" = some (.obj st) →
      objGet st "default" = some (.obj df) →
      (clone env name dashboardData).isOk = true ∧
      cloneGet (clone env name dashboardData) ["id"] = none ∧
      cloneGet (clone env name dashboardData) ["name"] =
        some (.str (jsOrName name device.name)) ∧
      cloneGet (clone env name dashboardData) ["title"] =
        some (.str (jsOrName name device.name)) ∧
      cloneGet (clone env name dashboardData) ["configuration", "states", "default", "name"] =
        some (.str (jsOrName name device.name)) ∧
      cloneGet (clone env name dashboardData)
          ["configuration", "entityAliases", k0, "filter", "singleEntity", "id"] =
        some (.str device.id.id) ∧
      cloneGet (clone env name dashboardData) ["configuration", "entityAliases", k0, "alias"] =
        some (.str device.name)) := by
  refine ⟨?_, ?_, ?_⟩
  · intro h
    simp [clone, h]
  · intro dsh t h1 h2
    simp [clone, h1, h2]
  · intro dsh t device dt dd cc k0 af arest ff sf st df h1 h2 h3 h4 h5 h6 h7 h8 h9
    subst h3
    simp [clone, cloneGet, jsSetPath, jsSetProp, jsProp, JVal.set, jsGetPath, JVal.get?,
      delField, h1, h2, h4, h5, h6, h7, h8, h9, objGet_objSet_self, objGet_objSet_ne,
      objGet_objDel_self, objGet_objDel_ne, objGet, Except.isOk, Except.toBool]

/-- C9 witness: cloning dashboard `base` onto device `Sensor-7` with no
explicit name produces a body named `Sensor-7` whose first alias points at the
device's live id; an empty dashboard search exits instead. -/
theorem c9_clone_first_alias_witness :
    clone ⟨[], []⟩ none (.obj []) = .error .dashboardNotFound ∧
    (clone c9Env none c9Dashboard).isOk = true ∧
    cloneGet (clone c9Env none c9Dashboard) ["id"] = none ∧
    cloneGet (clone c9Env none c9Dashboard) ["name"] = some (.str "Sensor-7") ∧
    cloneGet (clone c9Env none c9Dashboard)
        ["configuration", "entityAliases", "a1", "filter", "singleEntity", "id"] =
      some (.str "dev-7") ∧
    cloneGet (clone c9Env none c9Dashboard) ["configuration", "entityAliases", "a1", "alias"] =
      some (.str "Sensor-7") := by
  have h0 := (c9_clone_first_alias ⟨[], []⟩ none (.obj [])).1 rfl
  have h := (c9_clone_first_alias c9Env none c9Dashboard).2.2
    ⟨⟨"dash-1"⟩, "base"⟩ [] ⟨⟨"dev-7"⟩, "Sensor-7"⟩ []
    [("id", JVal.obj [("id", JVal.str "dash-1")]),
     ("name", JVal.str "Base"),
     ("title", JVal.str "Base"),
     ("configuration", JVal.obj
       [("entityAliases", JVal.obj
          [("a1", JVal.obj [("alias", JVal.str "OldDev"),
             ("filter", JVal.obj [("type", JVal.str "singleEntity"),
               ("singleEntity", JVal.obj [("entityType", JVal.str "DEVICE"),
                                          ("id", JVal.str "old-dev")])])])]),
        ("states", JVal.obj [("default", JVal.obj [("name", JVal.str "Base")])])])]
    [("entityAliases", JVal.obj
       [("a1", JVal.obj [("alias", JVal.str "OldDev"),
          ("filter", JVal.obj [("type", JVal.str "singleEntity"),
            ("singleEntity", JVal.obj [("entityType", JVal.str "DEVICE"),
                                       ("id", JVal.str "old-dev")])])])]),
     ("states", JVal.obj [("default", JVal.obj [("name", JVal.str "Base")])])]
    "a1"
    [("alias", JVal.str "OldDev"),
     ("filter", JVal.obj [("type", JVal.str "singleEntity"),
       ("singleEntity", JVal.obj [("entityType", JVal.str "DEVICE"),
                                  ("id", JVal.str "old-dev")])])]
    []
    [("type", JVal.str "singleEntity"),
     ("singleEntity", JVal.obj [("entityType", JVal.str "DEVICE"),
                                ("id", JVal.str "old-dev")])]
    [("entityType", JVal.str "DEVICE"), ("id", JVal.str "old-dev")]
    [("default", JVal.obj [("name", JVal.str "Base")])]
    [("name", JVal.str "Base")]
    rfl rfl rfl rfl rfl rfl rfl rfl rfl
  exact ⟨h0, h.1, h.2.1, h.2.2.1, h.2.2.2.2.2.1, h.2.2.2.2.2.2⟩
